import Mathlib

/-!
Shallow embedding of the Matrix-Hub catalog setup tool
(scripts/init.py): index documents in three shapes, the dedup/add
operations, ensure/persist, and the scaffold and inline-copy commands.

Python dictionaries holding the index are modelled as a structure of
Option-valued fields: a field is none exactly when the key is absent
from the dictionary, and some l when the key is present with list l
(so a present-but-empty list is some []).  Wall-clock time
(now_iso) and the JSON parser (json.loads) are external inputs and are
passed in explicitly.  The filesystem touched by a command is modelled
as the record of the files the command can read or write; sys.exit is
modelled as an error value carrying the state of those files at the
moment of exit.
-/

namespace MatrixInit

/-- Shape B list element, the dictionary with key manifest_url written by
add_manifest_url. -/
structure Item where
  manifest_url : String
deriving DecidableEq, Repr

/-- Shape C list element, the dictionary with keys path and base_url. -/
structure Entry where
  path : String
  base_url : String
deriving DecidableEq, Repr

/-- The meta block of an index: created by ensure_index, updated_at set
by persist_index.  Absent keys are none. -/
structure Meta where
  format : Option String := none
  version : Option Nat := none
  generated_by : Option String := none
  created_at : Option String := none
  updated_at : Option String := none
deriving DecidableEq, Repr

/-- An index document.  Each field is none when the corresponding key is
missing from the JSON object, mirroring the dictionary in init.py. -/
structure Index where
  manifests : Option (List String) := none
  items : Option (List Item) := none
  entries : Option (List Entry) := none
  meta : Option Meta := none
deriving DecidableEq, Repr

/-- VALID_SHAPES from init.py. -/
def VALID_SHAPES : List String := ["manifests", "items", "entries"]

/-- The Python falsy-or idiom x or default on an optional string: both
None and the empty string fall back to the default. -/
def pyOrDefault (s? : Option String) (d : String) : String :=
  match s? with
  | none => d
  | some s => if s = "" then d else s

/-- Contents of the index file on disk: either a parseable index or a
file json.load fails on. -/
inductive IdxFile where
  | valid (idx : Index)
  | corrupt
deriving DecidableEq, Repr

/-- ensure_index(path, shape): if the file exists, load it (exiting when
unreadable); otherwise validate the shape (a missing or falsy empty
shape defaults to items), build a minimal document with the single list
key and a meta block, and write it.  The returned pair is the in-memory
index and the new file state. -/
def ensure_index (file : Option IdxFile) (shape : Option String) (now : String) :
    Except String (Index × Option IdxFile) :=
  match file with
  | some (.valid idx) => .ok (idx, some (.valid idx))
  | some .corrupt => .error "ERROR: Could not read index file"
  | none =>
    let sh := pyOrDefault shape "items"
    if ¬ VALID_SHAPES.contains sh then
      .error "ERROR: shape must be one of manifests, items, entries"
    else
      let idx0 : Index :=
        if sh = "manifests" then { manifests := some [] }
        else if sh = "items" then { items := some [] }
        else { entries := some [] }
      let idx : Index :=
        { idx0 with
          meta := some { format := some "matrix-hub-index", version := some 1,
                         generated_by := some "scripts/init.py",
                         created_at := some now } }
      .ok (idx, some (.valid idx))

/-- persist_index(path, idx): set meta.updated_at (creating meta when
absent, as setdefault does) and write the document.  The write itself is
performed by the callers of this pure document transform. -/
def persist_index (idx : Index) (now : String) : Index :=
  { idx with meta := some { idx.meta.getD {} with updated_at := some now } }

/-- add_manifest_url(idx, url): append to items when that key is present,
else to manifests when present, else start a fresh items list.  Returns
a flag telling whether a new element was appended, paired with the
updated document. -/
def add_manifest_url (idx : Index) (url : String) : Bool × Index :=
  match idx.items with
  | some items =>
    if items.any (fun it => it.manifest_url == url) then (false, idx)
    else (true, { idx with items := some (items ++ [{ manifest_url := url }]) })
  | none =>
    match idx.manifests with
    | some mans =>
      if mans.contains url then (false, idx)
      else (true, { idx with manifests := some (mans ++ [url]) })
    | none => (true, { idx with items := some [{ manifest_url := url }] })

/-- add_entry(idx, path, base_url): setdefault the entries list, then
append the pair unless an identical pair is already present. -/
def add_entry (idx : Index) (path : String) (base_url : String) : Bool × Index :=
  let entries := idx.entries.getD []
  if entries.any (fun e => e.path == path && e.base_url == base_url) then
    (false, { idx with entries := some entries })
  else
    (true, { idx with entries := some (entries ++ [{ path := path, base_url := base_url }]) })

/-- The duplicate test of add_manifest_url, on the list that call would
scan: items when that key is present, else manifests, else nothing. -/
def manifest_url_present (idx : Index) (url : String) : Bool :=
  match idx.items with
  | some items => items.any (fun it => it.manifest_url == url)
  | none =>
    match idx.manifests with
    | some mans => mans.contains url
    | none => false

/-- The duplicate test of add_entry. -/
def entry_present (idx : Index) (path : String) (base_url : String) : Bool :=
  (idx.entries.getD []).any (fun e => e.path == path && e.base_url == base_url)

/-- A list key is populated when it is present and nonempty. -/
def populatedB {α : Type} : Option (List α) → Bool
  | some (_ :: _) => true
  | _ => false

/-- How many of the three list keys are populated. -/
def popCount (idx : Index) : Nat :=
  (if populatedB idx.manifests then 1 else 0) +
  (if populatedB idx.items then 1 else 0) +
  (if populatedB idx.entries then 1 else 0)

/-- Shape exclusivity: at most one of the three list keys is populated. -/
def shapeExclusive (idx : Index) : Bool :=
  popCount idx ≤ 1

/-- Total number of elements across the three lists. -/
def listLenSum (idx : Index) : Nat :=
  (idx.manifests.getD []).length + (idx.items.getD []).length +
  (idx.entries.getD []).length

/-- A one-key reference dictionary, as in the server and tools fields of
an agent manifest. -/
structure IdRef where
  id : String
deriving DecidableEq, Repr

/-- The tool manifest document written by scaffold_tool.  J is the type
of parsed JSON values produced by the external JSON parser; the two
schema fields are present only when a schema text was supplied and
parsed. -/
structure ToolManifest (J : Type) where
  type : String
  id : String
  version : String
  name : String
  summary : Option String := none
  description : Option String := none
  license : Option String := none
  homepage : Option String := none
  publisher : Option String := none
  input_schema : Option J := none
  output_schema : Option J := none
deriving DecidableEq, Repr

/-- The agent manifest document written by scaffold_agent. -/
structure AgentManifest where
  type : String
  id : String
  version : String
  name : String
  summary : Option String := none
  description : Option String := none
  license : Option String := none
  homepage : Option String := none
  publisher : Option String := none
  server : IdRef
  tools : List IdRef
deriving DecidableEq, Repr

/-- The local helper inside scaffold_tool: treat a missing or empty
schema text as absent, otherwise run the JSON parser and exit on
failure.  jsonLoads models json.loads, returning none where the parser
would raise. -/
def parse_schema {J : Type} (jsonLoads : String → Option J)
    (text : Option String) : Except String (Option J) :=
  match text with
  | none => .ok none
  | some s =>
    if s = "" then .ok none
    else
      match jsonLoads s with
      | some v => .ok (some v)
      | none => .error "ERROR: invalid JSON for schema"

/-- Arguments of the scaffold-tool command. -/
structure ToolArgs where
  base_url : String
  id : String
  name : String
  version : String
  summary : Option String := none
  description : Option String := none
  input_json : Option String := none
  output_json : Option String := none
  license : Option String := none
  homepage : Option String := none
  publisher : Option String := none
deriving DecidableEq, Repr

/-- scaffold_tool, up to the file write: build the manifest dictionary,
parsing the optional schema texts (exiting on invalid JSON).  The write
of the returned document is performed by cmd_scaffold_tool on its file
state. -/
def scaffold_tool {J : Type} (jsonLoads : String → Option J) (a : ToolArgs) :
    Except String (ToolManifest J) :=
  match parse_schema jsonLoads a.input_json with
  | .error e => .error e
  | .ok inS =>
    match parse_schema jsonLoads a.output_json with
    | .error e => .error e
    | .ok outS =>
      .ok { type := "tool", id := a.id, version := a.version, name := a.name,
            summary := a.summary, description := a.description,
            license := a.license, homepage := a.homepage,
            publisher := a.publisher,
            input_schema := inS, output_schema := outS }

/-- Files touched by the scaffold-tool command: the index file and the
manifest file id.manifest.json next to it. -/
structure ToolState (J : Type) where
  indexFile : Option IdxFile
  manifestFile : Option (ToolManifest J)
deriving DecidableEq, Repr

/-- cmd_scaffold_tool: ensure the index (shape entries), scaffold the
manifest (writing it next to the index), register the file name via
add_entry, persist.  An error carries the file state at the exit
point. -/
def cmd_scaffold_tool {J : Type} (jsonLoads : String → Option J)
    (st : ToolState J) (a : ToolArgs) (now : String) :
    Except (String × ToolState J) (ToolState J × Bool) :=
  match ensure_index st.indexFile (some "entries") now with
  | .error e => .error (e, st)
  | .ok (idx, f1) =>
    let st1 : ToolState J := { st with indexFile := f1 }
    match scaffold_tool jsonLoads a with
    | .error e => .error (e, st1)
    | .ok m =>
      let st2 : ToolState J := { st1 with manifestFile := some m }
      let r := add_entry idx (a.id ++ ".manifest.json") a.base_url
      .ok ({ st2 with indexFile := some (.valid (persist_index r.2 now)) }, r.1)

/-- Python str.split on a single-character separator, on the character
list of the string: split(",") with no limit keeps empty tokens. -/
def splitOnCharAux (c : Char) : List Char → List (List Char)
  | [] => [[]]
  | x :: xs =>
    match splitOnCharAux c xs with
    | [] => if x = c then [[], []] else [[x]]
    | h :: t => if x = c then [] :: h :: t else (x :: h) :: t

/-- Python str.split(sep) for a one-character sep. -/
def pySplit (c : Char) (s : String) : List String :=
  (splitOnCharAux c s.data).map String.mk

/-- Python str.strip(): drop leading and trailing whitespace. -/
def pyStrip (s : String) : String :=
  String.mk (((s.data.dropWhile Char.isWhitespace).reverse.dropWhile
    Char.isWhitespace).reverse)

/-- Arguments of the scaffold-agent command. -/
structure AgentArgs where
  base_url : String
  id : String
  name : String
  version : String
  server_id : String
  tool_ids : String
  summary : Option String := none
  description : Option String := none
  license : Option String := none
  homepage : Option String := none
  publisher : Option String := none
deriving DecidableEq, Repr

/-- The tool-ids tokenization in cmd_scaffold_agent:
[s.strip() for s in a.tool_ids.split(",") if s.strip()]. -/
def parse_tool_ids (s : String) : List String :=
  ((pySplit ',' s).map pyStrip).filter (fun t => t ≠ "")

/-- scaffold_agent, up to the file write: build the agent manifest
dictionary from the already tokenized tool ids. -/
def scaffold_agent (a : AgentArgs) (tool_ids : List String) : AgentManifest :=
  { type := "agent", id := a.id, version := a.version, name := a.name,
    summary := a.summary, description := a.description, license := a.license,
    homepage := a.homepage, publisher := a.publisher,
    server := { id := a.server_id },
    tools := tool_ids.map (fun tid => { id := tid }) }

/-- Files touched by the scaffold-agent command. -/
structure AgentState where
  indexFile : Option IdxFile
  manifestFile : Option AgentManifest
deriving DecidableEq, Repr

/-- cmd_scaffold_agent: ensure the index (shape entries), tokenize
tool_ids, write the manifest, register it, persist. -/
def cmd_scaffold_agent (st : AgentState) (a : AgentArgs) (now : String) :
    Except (String × AgentState) (AgentState × Bool) :=
  match ensure_index st.indexFile (some "entries") now with
  | .error e => .error (e, st)
  | .ok (idx, f1) =>
    let st1 : AgentState := { st with indexFile := f1 }
    let m := scaffold_agent a (parse_tool_ids a.tool_ids)
    let st2 : AgentState := { st1 with manifestFile := some m }
    let r := add_entry idx (a.id ++ ".manifest.json") a.base_url
    .ok ({ st2 with indexFile := some (.valid (persist_index r.2 now)) }, r.1)

/-- Files touched by the add-inline command: the index file, the source
manifest (none when it does not exist) and the destination file next to
the index, each holding text content. -/
structure InlineState where
  indexFile : Option IdxFile
  srcFile : Option String
  destFile : Option String
deriving DecidableEq, Repr

/-- cmd_add_inline: ensure the index (shape entries), require the source
to exist, then: when the destination exists and force is not set, exit
if the contents differ and skip the copy if they agree; otherwise copy
the source over the destination.  Finally register (dest_name, base_url)
and persist.  dest_name is the filename argument when given and
non-falsy, else the source file name. -/
def cmd_add_inline (st : InlineState) (base_url : String)
    (filenameArg : Option String) (srcName : String) (force : Bool)
    (now : String) :
    Except (String × InlineState) (InlineState × Bool) :=
  match ensure_index st.indexFile (some "entries") now with
  | .error e => .error (e, st)
  | .ok (idx, f1) =>
    let st1 : InlineState := { st with indexFile := f1 }
    match st1.srcFile with
    | none => .error ("ERROR: manifest not found", st1)
    | some srcContent =>
      let destName := pyOrDefault filenameArg srcName
      match
        (match st1.destFile with
         | some destContent =>
           if ¬ force then
             if destContent ≠ srcContent then
               Except.error ("ERROR: destination exists and differs", st1)
             else Except.ok st1
           else Except.ok { st1 with destFile := some srcContent }
         | none => Except.ok { st1 with destFile := some srcContent }) with
      | .error e => .error e
      | .ok st2 =>
        let r := add_entry idx destName base_url
        .ok ({ st2 with indexFile := some (.valid (persist_index r.2 now)) }, r.1)

/-- The entries list visible in an index file, empty when the file is
absent or not a valid index. -/
def startEntries (f : Option IdxFile) : List Entry :=
  match f with
  | some (.valid idx) => idx.entries.getD []
  | _ => []

/-- A supplied schema text that scaffold_tool will reject: nonempty and
refused by the JSON parser. -/
def schemaBad {J : Type} (jsonLoads : String → Option J)
    (text : Option String) : Bool :=
  match text with
  | some s => s ≠ "" && (jsonLoads s).isNone
  | none => false

/-- The minimal entries-shaped document ensure_index creates when the
index file is absent and shape entries is forced. -/
def fresh_entries_index (now : String) : Index :=
  { entries := some [],
    meta := some { format := some "matrix-hub-index", version := some 1,
                   generated_by := some "scripts/init.py",
                   created_at := some now } }

/-- The in-memory index a command works on after ensure_index with shape
entries: the stored document when the file holds one, else the fresh
entries-shaped document (the corrupt case never reaches this point). -/
def loaded_index (f : Option IdxFile) (now : String) : Index :=
  match f with
  | some (.valid idx) => idx
  | _ => fresh_entries_index now

/-- The list key targeted by add_manifest_url is already populated:
items when that key is present, else manifests when present. -/
def amuTargetPopulated (idx : Index) : Bool :=
  match idx.items with
  | some l => populatedB (some l)
  | none =>
    match idx.manifests with
    | some m => populatedB (some m)
    | none => false

theorem populatedB_some_append {α : Type} (l : List α) (x : α) :
    populatedB (some (l ++ [x])) = true := by
  cases l <;> simp [populatedB]

theorem populatedB_some_getD {α : Type} (o : Option (List α)) :
    populatedB (some (o.getD [])) = populatedB o := by
  cases o <;> simp [populatedB]

theorem shapeExclusive_iff (idx : Index) :
    shapeExclusive idx = true ↔ popCount idx ≤ 1 := by
  simp [shapeExclusive]

theorem popCount_mk (ms : Option (List String)) (its : Option (List Item))
    (es : Option (List Entry)) (me : Option Meta) :
    popCount { manifests := ms, items := its, entries := es, meta := me } =
      (if populatedB ms then 1 else 0) + (if populatedB its then 1 else 0) +
        (if populatedB es then 1 else 0) := rfl

/-- parse_schema fails exactly on a nonempty text the parser refuses. -/
theorem parse_schema_error_of_schemaBad {J : Type}
    (jsonLoads : String → Option J) (t : Option String)
    (h : schemaBad jsonLoads t = true) :
    parse_schema jsonLoads t = .error "ERROR: invalid JSON for schema" := by
  cases t with
  | none => simp [schemaBad] at h
  | some s =>
    simp only [schemaBad, Bool.and_eq_true, decide_eq_true_eq,
      Option.isNone_iff_eq_none] at h
    simp [parse_schema, h.1, h.2]

/-- parse_schema succeeds on anything schemaBad does not flag. -/
theorem parse_schema_ok_of_not_schemaBad {J : Type}
    (jsonLoads : String → Option J) (t : Option String)
    (h : schemaBad jsonLoads t = false) :
    ∃ o, parse_schema jsonLoads t = .ok o := by
  cases t with
  | none => exact ⟨none, rfl⟩
  | some s =>
    by_cases hs : s = ""
    · exact ⟨none, by simp [parse_schema, hs]⟩
    · simp only [schemaBad, Bool.and_eq_false_iff, decide_eq_false_iff_not,
        not_not, Option.isNone_eq_false_iff] at h
      rcases h with h | h
      · exact absurd h hs
      · obtain ⟨v, hv⟩ := Option.isSome_iff_exists.mp h
        exact ⟨some v, by simp [parse_schema, hs, hv]⟩

/-- Claim C1, counterexample: shape exclusivity is not preserved by every
single operation.  The document with only a populated items list is
exclusive, but add_entry on it (as run by add-entry or any scaffold
command against an items-shaped index file) populates a second list key,
entries. -/
theorem cross_shape_add_entry_breaks_exclusivity :
    shapeExclusive ({ items := some [{ manifest_url := "u" }] } : Index) = true ∧
    shapeExclusive
      (add_entry ({ items := some [{ manifest_url := "u" }] } : Index)
        "p" "http://h/").2 = false := by
  decide

/-- Claim C1, amended: exclusivity is preserved by persist always, by
ensure (a created document is exclusive and an existing one is returned
unchanged), and by add_manifest_url and add_entry whenever the list key
the call targets is already populated or no list key is populated; a
cross-shape call that newly populates a key while another key is
populated breaks it. -/
theorem shape_exclusivity_preserved_when_shape_matches (idx : Index)
    (u p b now : String) (shape? : Option String)
    (hx : shapeExclusive idx = true) :
    shapeExclusive (persist_index idx now) = true ∧
    (∀ i f, ensure_index none shape? now = .ok (i, f) →
      shapeExclusive i = true) ∧
    (∀ i0 i f, ensure_index (some (.valid i0)) shape? now = .ok (i, f) →
      i = i0) ∧
    ((amuTargetPopulated idx = true ∨ popCount idx = 0) →
      shapeExclusive (add_manifest_url idx u).2 = true) ∧
    ((populatedB idx.entries = true ∨ popCount idx = 0) →
      shapeExclusive (add_entry idx p b).2 = true) := by
  obtain ⟨ms, its, es, me⟩ := idx
  rw [shapeExclusive_iff, popCount_mk] at hx
  refine ⟨?_, ?_, ?_, ?_, ?_⟩
  case _ =>
    rw [shapeExclusive_iff]
    simpa [persist_index, popCount_mk] using hx
  case _ =>
    intro i f h
    simp only [ensure_index] at h
    split at h
    · simp at h
    · simp only [Except.ok.injEq, Prod.mk.injEq] at h
      obtain ⟨hi, hf⟩ := h
      subst hi
      rw [shapeExclusive_iff]
      by_cases h1 : pyOrDefault shape? "items" = "manifests" <;>
        by_cases h2 : pyOrDefault shape? "items" = "items" <;>
          simp [h1, h2, popCount_mk, populatedB]
  case _ =>
    intro i0 i f h
    simp only [ensure_index, Except.ok.injEq, Prod.mk.injEq] at h
    exact h.1.symm
  case _ =>
    intro hpre
    cases its with
    | some l =>
      simp only [add_manifest_url]
      split
      · rw [shapeExclusive_iff, popCount_mk]; exact hx
      · rw [shapeExclusive_iff, popCount_mk, populatedB_some_append]
        rcases hpre with hp | hp
        · simp only [amuTargetPopulated] at hp
          rw [hp] at hx
          cases hms : populatedB ms <;> cases hes : populatedB es <;>
            rw [hms, hes] at hx <;> simp_all
        · rw [popCount_mk] at hp
          cases hms : populatedB ms <;> cases hes : populatedB es <;>
            rw [hms, hes] at hp <;> simp_all
    | none =>
      cases ms with
      | some m =>
        simp only [add_manifest_url]
        split
        · rw [shapeExclusive_iff, popCount_mk]; exact hx
        · rw [shapeExclusive_iff, popCount_mk, populatedB_some_append]
          rcases hpre with hp | hp
          · simp only [amuTargetPopulated] at hp
            rw [hp] at hx
            cases hes : populatedB es <;> rw [hes] at hx <;>
              simp_all [populatedB]
          · rw [popCount_mk] at hp
            cases hes : populatedB es <;> rw [hes] at hp <;>
              simp_all [populatedB]
      | none =>
        simp only [add_manifest_url]
        rw [shapeExclusive_iff, popCount_mk]
        rcases hpre with hp | hp
        · simp [amuTargetPopulated, populatedB] at hp
        · rw [popCount_mk] at hp
          cases hes : populatedB es <;> rw [hes] at hp <;>
            simp_all [populatedB]
  case _ =>
    intro hpre
    simp only [add_entry]
    split
    · rw [shapeExclusive_iff, popCount_mk, populatedB_some_getD]
      exact hx
    · rw [shapeExclusive_iff, popCount_mk, populatedB_some_append]
      rcases hpre with hp | hp
      · rw [hp] at hx
        cases hms : populatedB ms <;> cases hits : populatedB its <;>
          rw [hms, hits] at hx <;> simp_all
      · rw [popCount_mk] at hp
        cases hms : populatedB ms <;> cases hits : populatedB its <;>
          rw [hms, hits] at hp <;> simp_all

/-- Witness for the amended C1 theorem on a concrete entries-shaped
document. -/
theorem shape_exclusivity_preserved_witness :
    shapeExclusive
      ({ entries := some [{ path := "a", base_url := "b" }] } : Index) = true ∧
    (shapeExclusive
        (persist_index
          ({ entries := some [{ path := "a", base_url := "b" }] } : Index)
          "T") = true ∧
      (∀ i f, ensure_index none (some "entries") "T" = .ok (i, f) →
        shapeExclusive i = true) ∧
      (∀ i0 i f,
        ensure_index (some (.valid i0)) (some "entries") "T" = .ok (i, f) →
        i = i0) ∧
      ((amuTargetPopulated
          ({ entries := some [{ path := "a", base_url := "b" }] } : Index) =
            true ∨
        popCount
          ({ entries := some [{ path := "a", base_url := "b" }] } : Index) =
            0) →
        shapeExclusive
          (add_manifest_url
            ({ entries := some [{ path := "a", base_url := "b" }] } : Index)
            "u").2 = true) ∧
      ((populatedB
          ({ entries := some [{ path := "a", base_url := "b" }] } : Index).entries =
            true ∨
        popCount
          ({ entries := some [{ path := "a", base_url := "b" }] } : Index) =
            0) →
        shapeExclusive
          (add_entry
            ({ entries := some [{ path := "a", base_url := "b" }] } : Index)
            "p" "q").2 = true)) :=
  ⟨by decide,
    shape_exclusivity_preserved_when_shape_matches
      ({ entries := some [{ path := "a", base_url := "b" }] } : Index)
      "u" "p" "q" "T" (some "entries") (by decide)⟩

/-- Claim C2, counterexample: on a document that already contains the
URL, two add_manifest_url calls increase the items list length zero
times, not exactly once; both calls return false. -/
theorem add_manifest_url_present_url_counterexample :
    (add_manifest_url ({ items := some [{ manifest_url := "u" }] } : Index)
      "u").1 = false ∧
    (add_manifest_url ({ items := some [{ manifest_url := "u" }] } : Index)
      "u").2 = ({ items := some [{ manifest_url := "u" }] } : Index) ∧
    listLenSum
      (add_manifest_url
        (add_manifest_url ({ items := some [{ manifest_url := "u" }] } : Index)
          "u").2 "u").2 =
      listLenSum ({ items := some [{ manifest_url := "u" }] } : Index) := by
  decide

/-- Claim C2, amended: a call appends exactly when it returns true, and
it returns true exactly when the URL is missing from the list the call
scans; hence calling twice with the same URL increases the length
exactly once when the URL was initially absent and not at all when it
was present.  The second call always returns false and leaves the
document identical (meta included; updated_at is only set by the
surrounding persist). -/
theorem add_manifest_url_idempotent (idx : Index) (u : String) :
    (add_manifest_url (add_manifest_url idx u).2 u).1 = false ∧
    (add_manifest_url (add_manifest_url idx u).2 u).2 =
      (add_manifest_url idx u).2 ∧
    (add_manifest_url idx u).1 = !(manifest_url_present idx u) ∧
    listLenSum (add_manifest_url idx u).2 =
      listLenSum idx + (if (add_manifest_url idx u).1 then 1 else 0) := by
  obtain ⟨ms, its, es, me⟩ := idx
  cases its with
  | some l =>
    by_cases h : l.any (fun it => it.manifest_url == u)
    · simp [add_manifest_url, manifest_url_present, h, listLenSum]
    · refine ⟨?_, ?_, ?_, ?_⟩ <;>
        simp [add_manifest_url, manifest_url_present, h, listLenSum,
          List.any_append] <;>
        omega
  | none =>
    cases ms with
    | some m =>
      by_cases h : u ∈ m
      · simp [add_manifest_url, manifest_url_present, h, listLenSum]
      · refine ⟨?_, ?_, ?_, ?_⟩ <;>
          simp [add_manifest_url, manifest_url_present, h, listLenSum] <;>
          omega
    | none =>
      refine ⟨?_, ?_, ?_, ?_⟩ <;>
        simp [add_manifest_url, manifest_url_present, listLenSum] <;> omega

/-- Claim C3, counterexample: on a document already containing the pair,
the first of the two calls returns false, not true, even though the two
base URLs differ. -/
theorem add_entry_existing_pair_counterexample :
    ("http://x/" : String) ≠ "http://y/" ∧
    (add_entry
      ({ entries := some [{ path := "a.json", base_url := "http://x/" }] } :
        Index) "a.json" "http://x/").1 = false := by
  decide

/-- Claim C3, amended: provided neither pair is already present, addEntry
with the same path and two different base URLs returns true both times
and appends two distinct entries; repeating an identical pair afterwards
returns false and changes nothing.  Deduplication is by the
(path, base_url) pair, not by path alone. -/
theorem add_entry_dedups_by_pair (idx : Index) (p b1 b2 : String)
    (hb : b1 ≠ b2)
    (h1 : entry_present idx p b1 = false)
    (h2 : entry_present idx p b2 = false) :
    (add_entry idx p b1).1 = true ∧
    (add_entry (add_entry idx p b1).2 p b2).1 = true ∧
    (add_entry (add_entry idx p b1).2 p b2).2.entries =
      some (idx.entries.getD [] ++
        [{ path := p, base_url := b1 }, { path := p, base_url := b2 }]) ∧
    (add_entry (add_entry (add_entry idx p b1).2 p b2).2 p b2).1 = false ∧
    (add_entry (add_entry (add_entry idx p b1).2 p b2).2 p b2).2 =
      (add_entry (add_entry idx p b1).2 p b2).2 := by
  obtain ⟨ms, its, es, me⟩ := idx
  simp only [entry_present] at h1 h2
  refine ⟨?_, ?_, ?_, ?_, ?_⟩ <;>
    simp [add_entry, h1, h2, hb, List.any_append]

/-- Witness for the amended C3 theorem on an empty document. -/
theorem add_entry_dedups_by_pair_witness :
    (("http://x/" : String) ≠ "http://y/" ∧
      entry_present ({} : Index) "a.json" "http://x/" = false ∧
      entry_present ({} : Index) "a.json" "http://y/" = false) ∧
    ((add_entry ({} : Index) "a.json" "http://x/").1 = true ∧
      (add_entry (add_entry ({} : Index) "a.json" "http://x/").2 "a.json"
        "http://y/").1 = true ∧
      (add_entry (add_entry ({} : Index) "a.json" "http://x/").2 "a.json"
        "http://y/").2.entries =
        some (({} : Index).entries.getD [] ++
          [{ path := "a.json", base_url := "http://x/" },
           { path := "a.json", base_url := "http://y/" }]) ∧
      (add_entry
        (add_entry (add_entry ({} : Index) "a.json" "http://x/").2 "a.json"
          "http://y/").2 "a.json" "http://y/").1 = false ∧
      (add_entry
        (add_entry (add_entry ({} : Index) "a.json" "http://x/").2 "a.json"
          "http://y/").2 "a.json" "http://y/").2 =
        (add_entry (add_entry ({} : Index) "a.json" "http://x/").2 "a.json"
          "http://y/").2) :=
  ⟨by decide,
    add_entry_dedups_by_pair ({} : Index) "a.json" "http://x/" "http://y/"
      (by decide) (by decide) (by decide)⟩

/-- Claim C8: add_manifest_url and add_entry never modify meta, never
touch the lists they do not append to, and extend the list they do
append to at the end, so existing elements are never removed or
reordered. -/
theorem add_ops_frame (idx : Index) (u p b : String) :
    (add_manifest_url idx u).2.meta = idx.meta ∧
    (add_manifest_url idx u).2.entries = idx.entries ∧
    ((add_manifest_url idx u).2.items = idx.items ∨
      (add_manifest_url idx u).2.manifests = idx.manifests) ∧
    (∃ t, (add_manifest_url idx u).2.items.getD [] =
      idx.items.getD [] ++ t) ∧
    (∃ t, (add_manifest_url idx u).2.manifests.getD [] =
      idx.manifests.getD [] ++ t) ∧
    (add_entry idx p b).2.meta = idx.meta ∧
    (add_entry idx p b).2.items = idx.items ∧
    (add_entry idx p b).2.manifests = idx.manifests ∧
    (add_entry idx p b).2.entries =
      some (idx.entries.getD [] ++
        (if entry_present idx p b then []
         else [{ path := p, base_url := b }])) := by
  obtain ⟨ms, its, es, me⟩ := idx
  refine ⟨?_, ?_, ?_, ?_, ?_, ?_, ?_, ?_, ?_⟩
  case _ =>
    cases its <;> cases ms <;> simp [add_manifest_url] <;> try (split <;> simp)
  case _ =>
    cases its <;> cases ms <;> simp [add_manifest_url] <;> try (split <;> simp)
  case _ =>
    cases its with
    | some l => right; simp [add_manifest_url]; split <;> simp
    | none =>
      cases ms with
      | some m => left; simp [add_manifest_url]; split <;> simp
      | none => right; simp [add_manifest_url]
  case _ =>
    cases its with
    | some l =>
      simp only [add_manifest_url]
      split
      · exact ⟨[], by simp⟩
      · exact ⟨[{ manifest_url := u }], by simp⟩
    | none =>
      cases ms with
      | some m => simp [add_manifest_url]
      | none => exact ⟨[{ manifest_url := u }], by simp [add_manifest_url]⟩
  case _ =>
    cases its with
    | some l => simp [add_manifest_url]; try (split <;> exact ⟨[], by simp⟩)
    | none =>
      cases ms with
      | some m =>
        simp only [add_manifest_url]
        split
        · exact ⟨[], by simp⟩
        · exact ⟨[u], by simp⟩
      | none => exact ⟨[], by simp [add_manifest_url]⟩
  case _ => simp [add_entry]; split <;> simp
  case _ => simp [add_entry]; split <;> simp
  case _ => simp [add_entry]; split <;> simp
  case _ =>
    simp only [add_entry, entry_present]
    split <;> simp_all

/-- Claim C6, counterexample: when a document already exists at the
path, ensure_index returns it without ever checking the shape argument,
so an invalid shape does not fail. -/
theorem ensure_ignores_shape_when_file_exists :
    ¬ (("bogus" : String) ∈ VALID_SHAPES) ∧
    ensure_index (some (.valid ({} : Index))) (some "bogus") "T" =
      .ok (({} : Index), some (.valid ({} : Index))) :=
  ⟨by decide, rfl⟩

/-- Claim C6, amended: ensure fails on a non-empty shape outside the
valid set only when no document exists at the path; an empty-string
shape is falsy and falls back to the default items, so it succeeds on an
absent path; when a document exists the shape argument is ignored and
the stored document is returned unchanged. -/
theorem ensure_invalid_shape_error_when_absent (s now : String)
    (hne : s ≠ "") (h : s ∉ VALID_SHAPES) :
    ensure_index none (some s) now =
      .error "ERROR: shape must be one of manifests, items, entries" ∧
    ensure_index none (some "") now = ensure_index none none now ∧
    ∀ i0 shape?, ensure_index (some (.valid i0)) shape? now =
      .ok (i0, some (.valid i0)) := by
  refine ⟨?_, rfl, ?_⟩
  · simp [ensure_index, pyOrDefault, hne, h]
  · intro i0 shape?
    rfl

/-- Witness for the amended C6 theorem at the invalid shape bogus. -/
theorem ensure_invalid_shape_error_witness :
    (("bogus" : String) ≠ "" ∧ ("bogus" : String) ∉ VALID_SHAPES) ∧
    (ensure_index none (some "bogus") "T" =
        .error "ERROR: shape must be one of manifests, items, entries" ∧
      ensure_index none (some "") "T" = ensure_index none none "T" ∧
      ∀ i0 shape?, ensure_index (some (.valid i0)) shape? "T" =
        .ok (i0, some (.valid i0))) :=
  ⟨⟨by decide, by decide⟩,
    ensure_invalid_shape_error_when_absent "bogus" "T" (by decide) (by decide)⟩

/-- Claim C7: on an absent path, ensure creates and persists a document
whose only populated list key is the requested shape (default items),
the other two list keys absent rather than empty, with a fresh
meta block carrying created_at. -/
theorem ensure_creates_exclusive_document (shape? : Option String)
    (now : String) (h : ∀ s, shape? = some s → s ∈ VALID_SHAPES) :
    ∃ idx, ensure_index none shape? now = .ok (idx, some (.valid idx)) ∧
      idx.meta = some { format := some "matrix-hub-index", version := some 1,
                        generated_by := some "scripts/init.py",
                        created_at := some now } ∧
      idx.manifests =
        (if shape?.getD "items" = "manifests" then some [] else none) ∧
      idx.items = (if shape?.getD "items" = "items" then some [] else none) ∧
      idx.entries =
        (if shape?.getD "items" = "entries" then some [] else none) := by
  cases shape? with
  | none =>
    refine ⟨_, rfl, ?_, ?_, ?_, ?_⟩ <;> simp [ensure_index, pyOrDefault]
  | some s =>
    have hs := h s rfl
    simp only [VALID_SHAPES, List.mem_cons, List.mem_singleton,
      List.not_mem_nil, or_false] at hs
    rcases hs with rfl | rfl | rfl <;>
      exact ⟨_, rfl, by simp [ensure_index, pyOrDefault],
        by simp [ensure_index, pyOrDefault], by simp [ensure_index, pyOrDefault],
        by simp [ensure_index, pyOrDefault]⟩

/-- Witness for C7 at the shape entries. -/
theorem ensure_creates_exclusive_document_witness :
    (∀ s, (some "entries" : Option String) = some s → s ∈ VALID_SHAPES) ∧
    (∃ idx, ensure_index none (some "entries") "T" =
        .ok (idx, some (.valid idx)) ∧
      idx.meta = some { format := some "matrix-hub-index", version := some 1,
                        generated_by := some "scripts/init.py",
                        created_at := some "T" } ∧
      idx.manifests =
        (if (some "entries" : Option String).getD "items" = "manifests" then
          some [] else none) ∧
      idx.items =
        (if (some "entries" : Option String).getD "items" = "items" then
          some [] else none) ∧
      idx.entries =
        (if (some "entries" : Option String).getD "items" = "entries" then
          some [] else none)) :=
  ⟨fun s hs => by rw [Option.some.injEq] at hs; rw [← hs]; decide,
    ensure_creates_exclusive_document (some "entries") "T"
      (fun s hs => by rw [Option.some.injEq] at hs; rw [← hs]; decide)⟩

/-- A JSON parser that accepts nothing, used to instantiate the
counterexamples and witnesses about scaffold-tool; in particular it
refuses the empty string, as json.loads does. -/
def jsonLoadsNone : String → Option Unit := fun _ => none

/-- A state with no index file and no manifest file. -/
def emptyToolState : ToolState Unit := { indexFile := none, manifestFile := none }

/-- scaffold-tool arguments carrying a nonempty schema text the parser
refuses. -/
def badToolArgs : ToolArgs :=
  { base_url := "http://h/", id := "t", name := "t", version := "1",
    input_json := some "bra" }

/-- scaffold-tool arguments carrying empty strings as both schema
texts. -/
def emptyStringToolArgs : ToolArgs :=
  { base_url := "http://h/", id := "t", name := "t", version := "1",
    input_json := some "", output_json := some "" }

/-- Claim C4, counterexample: the empty string is a supplied schema text
the JSON parser refuses, yet the scaffold-tool operation succeeds
instead of failing fatally, because the code treats a falsy text as
absent before ever parsing it. -/
theorem scaffold_tool_empty_text_not_fatal :
    jsonLoadsNone "" = none ∧
    ∃ r, cmd_scaffold_tool jsonLoadsNone emptyToolState emptyStringToolArgs
      "T" = .ok r :=
  ⟨rfl, ⟨_, rfl⟩⟩

/-- Claim C4, amended: when a supplied nonempty input or output schema
text is refused by the JSON parser, scaffold-tool fails fatally with the
invalid-schema error before the manifest file is written and before the
index gains any entry: the manifest file is untouched, an existing index
document is returned unchanged, and an absent one has only been created
empty by the initial ensure. -/
theorem scaffold_tool_invalid_schema_aborts {J : Type}
    (jsonLoads : String → Option J) (st : ToolState J) (a : ToolArgs)
    (now : String)
    (h : (schemaBad jsonLoads a.input_json ||
      schemaBad jsonLoads a.output_json) = true) :
    ∃ msg st', cmd_scaffold_tool jsonLoads st a now = .error (msg, st') ∧
      st'.manifestFile = st.manifestFile ∧
      (∀ i, st.indexFile = some (.valid i) →
        st'.indexFile = some (.valid i)) ∧
      (st.indexFile = none →
        ∃ i, st'.indexFile = some (.valid i) ∧ i.entries = some []) := by
  have hscaf : scaffold_tool jsonLoads a =
      .error "ERROR: invalid JSON for schema" := by
    rcases Bool.or_eq_true_iff.mp h with hb | hb
    · simp [scaffold_tool,
        parse_schema_error_of_schemaBad jsonLoads a.input_json hb]
    · by_cases hin : schemaBad jsonLoads a.input_json = true
      · simp [scaffold_tool,
          parse_schema_error_of_schemaBad jsonLoads a.input_json hin]
      · obtain ⟨o, ho⟩ := parse_schema_ok_of_not_schemaBad jsonLoads
          a.input_json (by simpa using hin)
        simp [scaffold_tool, ho,
          parse_schema_error_of_schemaBad jsonLoads a.output_json hb]
  match hf : st.indexFile with
  | some (.valid i) =>
    let st' : ToolState J := { st with indexFile := some (.valid i) }
    refine ⟨"ERROR: invalid JSON for schema", st', ?_, rfl, ?_, ?_⟩
    · simp [cmd_scaffold_tool, ensure_index, hf, hscaf, st']
    · intro i' hi'
      simp only [Option.some.injEq, IdxFile.valid.injEq] at hi'
      simp [st', hi']
    · intro h0; simp at h0
  | some .corrupt =>
    refine ⟨"ERROR: Could not read index file", st, ?_, rfl, ?_, ?_⟩
    · simp [cmd_scaffold_tool, ensure_index, hf]
    · intro i' hi'; simp at hi'
    · intro h0; simp at h0
  | none =>
    let st' : ToolState J :=
      { st with indexFile := some (.valid (fresh_entries_index now)) }
    refine ⟨"ERROR: invalid JSON for schema", st', ?_, rfl, ?_, ?_⟩
    · simp [cmd_scaffold_tool, ensure_index, hf, hscaf, VALID_SHAPES, pyOrDefault,
        fresh_entries_index, st']
    · intro i' hi'; simp at hi'
    · intro h0
      exact ⟨fresh_entries_index now, rfl, rfl⟩

/-- Witness for the amended C4 theorem: a refused nonempty schema text
on a fresh state. -/
theorem scaffold_tool_invalid_schema_aborts_witness :
    (schemaBad jsonLoadsNone badToolArgs.input_json ||
      schemaBad jsonLoadsNone badToolArgs.output_json) = true ∧
    (∃ msg st', cmd_scaffold_tool jsonLoadsNone emptyToolState badToolArgs
        "T" = .error (msg, st') ∧
      st'.manifestFile = emptyToolState.manifestFile ∧
      (∀ i, emptyToolState.indexFile = some (.valid i) →
        st'.indexFile = some (.valid i)) ∧
      (emptyToolState.indexFile = none →
        ∃ i, st'.indexFile = some (.valid i) ∧ i.entries = some [])) :=
  ⟨by decide,
    scaffold_tool_invalid_schema_aborts jsonLoadsNone emptyToolState
      badToolArgs "T" (by decide)⟩

/-- Claim C10: an empty string supplied as a schema text is treated as
absent rather than as invalid JSON: scaffold-tool succeeds without
consulting the parser and the corresponding schema fields are omitted
from the written manifest. -/
theorem scaffold_tool_empty_schema_text_ok {J : Type}
    (jsonLoads : String → Option J) (st : ToolState J) (a : ToolArgs)
    (now : String)
    (hin : a.input_json = some "")
    (hout : a.output_json = some "")
    (hv : st.indexFile ≠ some .corrupt) :
    ∃ st' changed m,
      cmd_scaffold_tool jsonLoads st a now = .ok (st', changed) ∧
      st'.manifestFile = some m ∧
      m.input_schema = none ∧ m.output_schema = none := by
  have hscaf : scaffold_tool jsonLoads a =
      .ok { type := "tool", id := a.id, version := a.version, name := a.name,
            summary := a.summary, description := a.description,
            license := a.license, homepage := a.homepage,
            publisher := a.publisher,
            input_schema := none, output_schema := none } := by
    simp [scaffold_tool, parse_schema, hin, hout]
  match hf : st.indexFile with
  | some (.valid i) =>
    let m0 : ToolManifest J := { type := "tool", id := a.id, version := a.version, name := a.name, summary := a.summary, description := a.description, license := a.license, homepage := a.homepage, publisher := a.publisher }
    let r := add_entry i (a.id ++ ".manifest.json") a.base_url
    let stOut : ToolState J := { indexFile := some (.valid (persist_index r.2 now)), manifestFile := some m0 }
    have hcmd : cmd_scaffold_tool jsonLoads st a now = .ok (stOut, r.1) := by
      simp [cmd_scaffold_tool, ensure_index, hf, hscaf, stOut, m0, r]
    exact ⟨stOut, r.1, m0, hcmd, rfl, rfl, rfl⟩
  | some .corrupt => exact absurd hf hv
  | none =>
    let m0 : ToolManifest J := { type := "tool", id := a.id, version := a.version, name := a.name, summary := a.summary, description := a.description, license := a.license, homepage := a.homepage, publisher := a.publisher }
    let r := add_entry (fresh_entries_index now) (a.id ++ ".manifest.json") a.base_url
    let stOut : ToolState J := { indexFile := some (.valid (persist_index r.2 now)), manifestFile := some m0 }
    have hcmd : cmd_scaffold_tool jsonLoads st a now = .ok (stOut, r.1) := by
      simp [cmd_scaffold_tool, ensure_index, hf, hscaf, VALID_SHAPES, pyOrDefault, fresh_entries_index, stOut, m0, r]
    exact ⟨stOut, r.1, m0, hcmd, rfl, rfl, rfl⟩

/-- Witness for C10 on a fresh state with both schema texts empty. -/
theorem scaffold_tool_empty_schema_text_ok_witness :
    (emptyStringToolArgs.input_json = some "" ∧
      emptyStringToolArgs.output_json = some "" ∧
      emptyToolState.indexFile ≠ some .corrupt) ∧
    (∃ st' changed m,
      cmd_scaffold_tool jsonLoadsNone emptyToolState emptyStringToolArgs
        "T" = .ok (st', changed) ∧
      st'.manifestFile = some m ∧
      m.input_schema = none ∧ m.output_schema = none) :=
  ⟨⟨rfl, rfl, by decide⟩,
    scaffold_tool_empty_schema_text_ok jsonLoadsNone emptyToolState
      emptyStringToolArgs "T" rfl rfl (by decide)⟩

/-- Claim C9: the agent manifest's tools list is exactly the
comma-separated tool-ids input, each token stripped of surrounding
whitespace, empty tokens discarded, order preserved and duplicates kept,
each surviving token wrapped as an id record. -/
theorem scaffold_agent_tool_ids (st : AgentState) (a : AgentArgs)
    (now : String) (hv : st.indexFile ≠ some .corrupt) :
    ∃ st' changed m,
      cmd_scaffold_agent st a now = .ok (st', changed) ∧
      st'.manifestFile = some m ∧
      m.tools = (((pySplit ',' a.tool_ids).map pyStrip).filter
        (fun t => t ≠ "")).map (fun t => ({ id := t } : IdRef)) := by
  match hf : st.indexFile with
  | some (.valid i) =>
    let m0 := scaffold_agent a (parse_tool_ids a.tool_ids)
    let r := add_entry i (a.id ++ ".manifest.json") a.base_url
    let stOut : AgentState := { indexFile := some (.valid (persist_index r.2 now)), manifestFile := some m0 }
    have hcmd : cmd_scaffold_agent st a now = .ok (stOut, r.1) := by
      simp [cmd_scaffold_agent, ensure_index, hf, stOut, m0, r]
    exact ⟨stOut, r.1, m0, hcmd, rfl, rfl⟩
  | some .corrupt => exact absurd hf hv
  | none =>
    let m0 := scaffold_agent a (parse_tool_ids a.tool_ids)
    let r := add_entry (fresh_entries_index now) (a.id ++ ".manifest.json") a.base_url
    let stOut : AgentState := { indexFile := some (.valid (persist_index r.2 now)), manifestFile := some m0 }
    have hcmd : cmd_scaffold_agent st a now = .ok (stOut, r.1) := by
      simp [cmd_scaffold_agent, ensure_index, hf, VALID_SHAPES, pyOrDefault, fresh_entries_index, stOut, m0, r]
    exact ⟨stOut, r.1, m0, hcmd, rfl, rfl⟩

/-- A state with no index file and no agent manifest file. -/
def emptyAgentState : AgentState := { indexFile := none, manifestFile := none }

/-- scaffold-agent arguments whose tool-ids input has padding, an empty
token and a repeated id. -/
def dupAgentArgs : AgentArgs :=
  { base_url := "http://h/", id := "ag", name := "ag", version := "1",
    server_id := "srv", tool_ids := " a ,, a , b" }

/-- Witness for C9: the padded, duplicated input tokenizes to a list
that keeps both copies of the repeated id and drops the empty token. -/
theorem scaffold_agent_tool_ids_witness :
    (emptyAgentState.indexFile ≠ some .corrupt ∧
      parse_tool_ids dupAgentArgs.tool_ids = ["a", "a", "b"]) ∧
    (∃ st' changed m,
      cmd_scaffold_agent emptyAgentState dupAgentArgs "T" =
        .ok (st', changed) ∧
      st'.manifestFile = some m ∧
      m.tools = (((pySplit ',' dupAgentArgs.tool_ids).map pyStrip).filter
        (fun t => t ≠ "")).map (fun t => ({ id := t } : IdRef))) :=
  ⟨⟨by decide, by decide⟩,
    scaffold_agent_tool_ids emptyAgentState dupAgentArgs "T" (by decide)⟩

/-- Claim C5: for add-inline with an existing source, (1) when the
destination exists with differing content and force is not set, the
command fails with the conflict error, leaving the destination and the
entries of the index untouched; (2) when the existing destination content is
byte-identical, it proceeds without copying and still attempts addEntry;
(3) when force is set, the destination is overwritten with the source
unconditionally and addEntry is attempted. -/
theorem add_inline_conflict_behaviour (st : InlineState) (base_url : String)
    (filenameArg : Option String) (srcName : String) (force : Bool)
    (now src dest : String)
    (hv : st.indexFile ≠ some .corrupt)
    (hsrc : st.srcFile = some src) :
    (st.destFile = some dest → dest ≠ src → force = false →
      ∃ msg st', cmd_add_inline st base_url filenameArg srcName force now =
          .error (msg, st') ∧
        st'.destFile = st.destFile ∧
        startEntries st'.indexFile = startEntries st.indexFile ∧
        (∀ i, st.indexFile = some (.valid i) →
          st'.indexFile = some (.valid i))) ∧
    (st.destFile = some dest → dest = src → force = false →
      ∃ st', cmd_add_inline st base_url filenameArg srcName force now =
          .ok (st', (add_entry (loaded_index st.indexFile now)
            (pyOrDefault filenameArg srcName) base_url).1) ∧
        st'.destFile = st.destFile ∧
        st'.indexFile = some (.valid (persist_index
          (add_entry (loaded_index st.indexFile now)
            (pyOrDefault filenameArg srcName) base_url).2 now))) ∧
    (force = true →
      ∃ st', cmd_add_inline st base_url filenameArg srcName force now =
          .ok (st', (add_entry (loaded_index st.indexFile now)
            (pyOrDefault filenameArg srcName) base_url).1) ∧
        st'.destFile = some src ∧
        st'.indexFile = some (.valid (persist_index
          (add_entry (loaded_index st.indexFile now)
            (pyOrDefault filenameArg srcName) base_url).2 now))) := by
  refine ⟨?_, ?_, ?_⟩
  case _ =>
    intro hd hne hforce
    match hf : st.indexFile with
    | some (.valid i) =>
      let st1 : InlineState := { st with indexFile := some (.valid i) }
      refine ⟨"ERROR: destination exists and differs", st1, ?_, rfl, ?_, ?_⟩
      · simp [cmd_add_inline, ensure_index, hf, hsrc, hd, hforce, hne, st1]
      · simp [startEntries, hf, st1]
      · intro i' hi'
        simp only [Option.some.injEq, IdxFile.valid.injEq] at hi'
        simp [st1, hi']
    | some .corrupt => exact absurd hf hv
    | none =>
      let st1 : InlineState := { st with indexFile := some (.valid (fresh_entries_index now)) }
      refine ⟨"ERROR: destination exists and differs", st1, ?_, rfl, ?_, ?_⟩
      · simp [cmd_add_inline, ensure_index, hf, hsrc, hd, hforce, hne,
          VALID_SHAPES, pyOrDefault, fresh_entries_index, st1]
      · simp [startEntries, hf, st1, fresh_entries_index]
      · intro i' hi'; simp at hi'
  case _ =>
    intro hd heq hforce
    subst heq
    match hf : st.indexFile with
    | some (.valid i) =>
      let r := add_entry i (pyOrDefault filenameArg srcName) base_url
      let st' : InlineState := { indexFile := some (.valid (persist_index r.2 now)), srcFile := st.srcFile, destFile := st.destFile }
      refine ⟨st', ?_, rfl, ?_⟩
      · simp [cmd_add_inline, ensure_index, hf, hsrc, hd, hforce, st', r,
          loaded_index]
      · simp [st', r, loaded_index, hf]
    | some .corrupt => exact absurd hf hv
    | none =>
      let r := add_entry (fresh_entries_index now) (pyOrDefault filenameArg srcName) base_url
      let st' : InlineState := { indexFile := some (.valid (persist_index r.2 now)), srcFile := st.srcFile, destFile := st.destFile }
      refine ⟨st', ?_, rfl, ?_⟩
      · simp [cmd_add_inline, ensure_index, hf, hsrc, hd, hforce,
          VALID_SHAPES, pyOrDefault, fresh_entries_index, st', r, loaded_index]
      · simp [st', r, loaded_index, hf]
  case _ =>
    intro hforce
    match hf : st.indexFile with
    | some (.valid i) =>
      let r := add_entry i (pyOrDefault filenameArg srcName) base_url
      let st' : InlineState := { indexFile := some (.valid (persist_index r.2 now)), srcFile := st.srcFile, destFile := some src }
      refine ⟨st', ?_, rfl, ?_⟩
      · cases hd : st.destFile <;>
          simp [cmd_add_inline, ensure_index, hf, hsrc, hd, hforce, st', r,
            loaded_index]
      · simp [st', r, loaded_index, hf]
    | some .corrupt => exact absurd hf hv
    | none =>
      let r := add_entry (fresh_entries_index now) (pyOrDefault filenameArg srcName) base_url
      let st' : InlineState := { indexFile := some (.valid (persist_index r.2 now)), srcFile := st.srcFile, destFile := some src }
      refine ⟨st', ?_, rfl, ?_⟩
      · cases hd : st.destFile <;>
          simp [cmd_add_inline, ensure_index, hf, hsrc, hd, hforce,
            VALID_SHAPES, pyOrDefault, fresh_entries_index, st', r, loaded_index]
      · simp [st', r, loaded_index, hf]

/-- A state for add-inline: no index file, a source with content SRC and
a destination already holding different content OLD. -/
def conflictInlineState : InlineState :=
  { indexFile := none, srcFile := some "SRC", destFile := some "OLD" }

/-- Witness for C5 on the conflicting state. -/
theorem add_inline_conflict_behaviour_witness :
    (conflictInlineState.indexFile ≠ some .corrupt ∧
      conflictInlineState.srcFile = some "SRC") ∧
    ((conflictInlineState.destFile = some "OLD" → ("OLD" : String) ≠ "SRC" →
        false = false →
      ∃ msg st', cmd_add_inline conflictInlineState "http://h/" none "m.json"
          false "T" = .error (msg, st') ∧
        st'.destFile = conflictInlineState.destFile ∧
        startEntries st'.indexFile =
          startEntries conflictInlineState.indexFile ∧
        (∀ i, conflictInlineState.indexFile = some (.valid i) →
          st'.indexFile = some (.valid i))) ∧
      (conflictInlineState.destFile = some "OLD" → ("OLD" : String) = "SRC" →
        false = false →
        ∃ st', cmd_add_inline conflictInlineState "http://h/" none "m.json"
            false "T" =
            .ok (st', (add_entry (loaded_index conflictInlineState.indexFile
              "T") (pyOrDefault none "m.json") "http://h/").1) ∧
          st'.destFile = conflictInlineState.destFile ∧
          st'.indexFile = some (.valid (persist_index
            (add_entry (loaded_index conflictInlineState.indexFile "T")
              (pyOrDefault none "m.json") "http://h/").2 "T"))) ∧
      (false = true →
        ∃ st', cmd_add_inline conflictInlineState "http://h/" none "m.json"
            false "T" =
            .ok (st', (add_entry (loaded_index conflictInlineState.indexFile
              "T") (pyOrDefault none "m.json") "http://h/").1) ∧
          st'.destFile = some "SRC" ∧
          st'.indexFile = some (.valid (persist_index
            (add_entry (loaded_index conflictInlineState.indexFile "T")
              (pyOrDefault none "m.json") "http://h/").2 "T")))) :=
  ⟨⟨by decide, rfl⟩,
    add_inline_conflict_behaviour conflictInlineState "http://h/" none
      "m.json" false "T" "SRC" "OLD" (by decide) rfl⟩

end MatrixInit
